import Mathlib

/-!
Shallow embedding of the sbderbynet race-coordination code: the race
coordinator (`derbyRace.py`), the DerbyNet API client (`derbyapi.py`), the
finish-timer MQTT reconnect loop (`finishtimer.py`) and the PCB DIP-switch
decoder (`derbynetPCBv1.py`).  Timestamps are modelled as rationals,
Python dicts as insertion-ordered association lists, and the network as an
explicit list of server responses.
-/

namespace SBDerby

/-- Python `round(x, 3)` idealised over the rationals: round to the nearest
multiple of 1/1000. -/
def pyRound3 (q : ℚ) : ℚ := (round (q * 1000) : ℤ) / 1000

/-- Python-dict insertion `d[k] = v`: replace the value of an existing key in
place, otherwise append the new entry (Python dicts preserve insertion
order). -/
def dinsert {β : Type} (k : Nat) (v : β) : List (Nat × β) → List (Nat × β)
  | [] => [(k, v)]
  | (k', v') :: rest => if k' = k then (k, v) :: rest else (k', v') :: dinsert k v rest

/-- Python-dict access `d.get(k)`: value of the first entry with key `k`. -/
def dlookup {β : Type} (k : Nat) : List (Nat × β) → Option β
  | [] => none
  | (k', v) :: rest => if k' = k then some v else dlookup k rest

theorem dlookup_dinsert_self {β : Type} (k : Nat) (v : β) (d : List (Nat × β)) :
    dlookup k (dinsert k v d) = some v := by
  induction d with
  | nil => simp [dinsert, dlookup]
  | cons p rest ih =>
    obtain ⟨k', v'⟩ := p
    by_cases h : k' = k
    · simp [dinsert, dlookup, h]
    · simp [dinsert, dlookup, h, ih]

theorem dlookup_dinsert_ne {β : Type} (k k₀ : Nat) (v : β) (d : List (Nat × β))
    (hne : k₀ ≠ k) : dlookup k₀ (dinsert k v d) = dlookup k₀ d := by
  have hkk : k ≠ k₀ := Ne.symm hne
  induction d with
  | nil => simp [dinsert, dlookup, hkk]
  | cons p rest ih =>
    obtain ⟨k', v'⟩ := p
    by_cases h : k' = k
    · subst h
      have h2 : k' ≠ k₀ := Ne.symm hne
      simp [dinsert, dlookup, h2]
    · by_cases h0 : k' = k₀ <;> simp [dinsert, dlookup, h, h0, ih, hne]

/-- Looking a key up in a filtered dict still finds the entry, provided the
entry satisfies the filter predicate. -/
theorem dlookup_filter {β : Type} (p : Nat × β → Bool) (k : Nat) (v : β) :
    ∀ d : List (Nat × β), dlookup k d = some v → p (k, v) = true →
      dlookup k (d.filter p) = some v := by
  intro d
  induction d with
  | nil => intro h; simp [dlookup] at h
  | cons e rest ih =>
    obtain ⟨k', v'⟩ := e
    intro hl hp
    by_cases h : k' = k
    · subst h
      simp [dlookup] at hl
      subst hl
      simp [List.filter, hp, dlookup]
    · simp [dlookup, h] at hl
      cases hpe : p (k', v') <;> simp [List.filter, hpe, dlookup, h, ih hl hp]

/-! ## derbyRace.py : race coordinator state -/

/-- Race timing and reliability settings (`derbyRace.py`). -/
def HEARTBEAT_TIMEOUT : ℚ := 6
/-- Seconds to wait between heartbeat pulses (`derbyRace.py`). -/
def HEARTBEAT_PULSE : ℚ := 1

/-- Externally visible side effects performed by the coordinator: API calls
and MQTT publishes. -/
inductive Effect
  | apiSendStart : Effect
  | apiSendFinish (roundid heatid : Nat) (lane_times : List (Nat × ℚ)) : Effect
  | apiSendTimerHeartbeat (hb : List (Nat × ℚ × Bool)) : Effect
  | raceStartEvent (timestamp : ℚ) (roundid heatid : Nat) : Effect
  | updateLEDAll (led : String) : Effect
  | updateLEDLane (led : String) (lane : Nat) : Effect
  deriving DecidableEq, Repr

/-- The mutable fields of class `derbyRace` that the claims touch. -/
structure RaceState where
  start_time : ℚ
  lane_times : List (Nat × ℚ)
  lanesFinished : Nat
  lane_count : Nat
  roundid : Nat
  heatid : Nat
  led : String
  race_state : String
  timer_heartbeats : List (Nat × ℚ × Bool)
  last_heartbeat : ℚ
  deriving DecidableEq, Repr

/-- `derbyRace.__init__` (the race-record fields; `lane_count` defaults
to 3). -/
def initRace (lane_count : Nat := 3) : RaceState where
  start_time := 0
  lane_times := []
  lanesFinished := 0
  lane_count := lane_count
  roundid := 0
  heatid := 0
  led := "red"
  race_state := "STOPPED"
  timer_heartbeats := []
  last_heartbeat := 0

/-- `derbyRace.startRace(timer)`: only when `start_time == 0` it resets
`lanesFinished` and `lane_times`, records the start timestamp and publishes
the `race_start` event; otherwise it does nothing. -/
def startRace (s : RaceState) (timer : ℚ) : RaceState × List Effect :=
  if s.start_time = 0 then
    ({ s with lanesFinished := 0, lane_times := [], start_time := timer },
     [Effect.raceStartEvent timer s.roundid s.heatid])
  else (s, [])

/-- `derbyRace.stopRace(timer)`: sets the race state to STOPPED, turns the
LEDs red, posts `send_finish(roundid, heatid, lane_times)` to the API with
the accumulated lane times, then clears `lanesFinished`, `lane_times` and
`start_time`. -/
def stopRace (s : RaceState) (_timer : ℚ) : RaceState × List Effect :=
  ({ s with race_state := "STOPPED", lanesFinished := 0, lane_times := [],
            start_time := 0 },
   [Effect.updateLEDAll "red",
    Effect.apiSendFinish s.roundid s.heatid s.lane_times])

/-- `derbyRace.laneFinish(lane, timer)`: computes the elapsed race time
(`round(timer - start_time, 3)` when a start time is recorded, else `0.0`),
stores it in `lane_times[lane]`, increments `lanesFinished`, lights the
lane's LED purple, and if `lanesFinished` has reached `lane_count` calls
`stopRace` and returns `True`; otherwise returns `False`. -/
def laneFinish (s : RaceState) (lane : Nat) (timer : ℚ) :
    RaceState × List Effect × Bool :=
  let race_time := if s.start_time > 0 then pyRound3 (timer - s.start_time) else 0
  let s1 := { s with lane_times := dinsert lane race_time s.lane_times,
                     lanesFinished := s.lanesFinished + 1 }
  if s1.lanesFinished = s1.lane_count then
    let r := stopRace s1 timer
    (r.1, Effect.updateLEDLane "purple" lane :: r.2, true)
  else
    (s1, [Effect.updateLEDLane "purple" lane], false)

/-- Running a sequence of finish events `(lane, timer)` through
`laneFinish`, accumulating the emitted effects. -/
def runFinishes (s : RaceState) : List (Nat × ℚ) → RaceState × List Effect
  | [] => (s, [])
  | (lane, t) :: rest =>
    let r1 := laneFinish s lane t
    let r2 := runFinishes r1.1 rest
    (r2.1, r1.2.1 ++ r2.2)

/-- Whether a single effect is a `send_finish` API call. -/
def isSendFinish : Effect → Bool
  | Effect.apiSendFinish _ _ _ => true
  | _ => false

/-- Whether a list of effects contains a `send_finish` API call. -/
def containsSendFinish (effs : List Effect) : Bool :=
  effs.any isSendFinish

/-- When the incremented finish count has not reached `lane_count`,
`laneFinish` only records the time, increments the counter and lights the
lane LED. -/
theorem laneFinish_not_complete (s : RaceState) (lane : Nat) (timer : ℚ)
    (h : s.lanesFinished + 1 ≠ s.lane_count) :
    laneFinish s lane timer =
      ({ s with lane_times := dinsert lane (if s.start_time > 0 then pyRound3 (timer - s.start_time) else 0) s.lane_times, lanesFinished := s.lanesFinished + 1 },
       [Effect.updateLEDLane "purple" lane], false) := by
  simp [laneFinish, h]

/-- When the incremented finish count reaches `lane_count`, `laneFinish`
runs `stopRace`: it clears the race record and posts `send_finish` with the
accumulated lane times. -/
theorem laneFinish_complete (s : RaceState) (lane : Nat) (timer : ℚ)
    (h : s.lanesFinished + 1 = s.lane_count) :
    laneFinish s lane timer =
      ({ s with race_state := "STOPPED", lanesFinished := 0, lane_times := [], start_time := 0 },
       [Effect.updateLEDLane "purple" lane, Effect.updateLEDAll "red",
        Effect.apiSendFinish s.roundid s.heatid (dinsert lane (if s.start_time > 0 then pyRound3 (timer - s.start_time) else 0) s.lane_times)], true) := by
  simp [laneFinish, stopRace, h]

/-- Starting below the lane count by more than the number of events, no
`send_finish` is ever posted while running the events. -/
theorem runFinishes_no_sendFinish :
    ∀ (evts : List (Nat × ℚ)) (s : RaceState),
      s.lanesFinished + evts.length < s.lane_count →
      containsSendFinish (runFinishes s evts).2 = false := by
  intro evts
  induction evts with
  | nil => intro s _; rfl
  | cons e rest ih =>
    intro s h
    obtain ⟨lane, t⟩ := e
    have hne : s.lanesFinished + 1 ≠ s.lane_count := by
      simp only [List.length_cons] at h
      omega
    have hstep := laneFinish_not_complete s lane t hne
    simp only [runFinishes, hstep, containsSendFinish, List.any_append,
      List.any_cons, List.any_nil, isSendFinish, Bool.false_or, Bool.or_false]
    refine ih _ ?_
    show s.lanesFinished + 1 + rest.length < s.lane_count
    simp only [List.length_cons] at h
    omega

/-- C1: `derbyRace.laneFinish` invokes `api.send_finish(roundid, heatid,
lane_times)` (via `stopRace`) precisely when the number of recorded lane
finishes reaches `lane_count`; it returns `True` exactly when that call
completed the race, and any sequence of fewer than `lane_count` finish
events starting from a fresh race never posts `send_finish`. -/
theorem C1_laneFinish_posts_once_all_lanes_report :
    ∀ (s : RaceState) (lane : Nat) (timer : ℚ),
      (containsSendFinish (laneFinish s lane timer).2.1 = true ↔
        s.lanesFinished + 1 = s.lane_count) ∧
      ((laneFinish s lane timer).2.2 = true ↔ s.lanesFinished + 1 = s.lane_count) ∧
      (s.lanesFinished + 1 = s.lane_count →
        Effect.apiSendFinish s.roundid s.heatid (dinsert lane (if s.start_time > 0 then pyRound3 (timer - s.start_time) else 0) s.lane_times) ∈ (laneFinish s lane timer).2.1) ∧
      (∀ evts : List (Nat × ℚ), s.lanesFinished = 0 → evts.length < s.lane_count →
        containsSendFinish (runFinishes s evts).2 = false) := by
  intro s lane timer
  refine ⟨?_, ?_, ?_, ?_⟩
  · by_cases h : s.lanesFinished + 1 = s.lane_count
    · simp [laneFinish_complete s lane timer h, containsSendFinish, isSendFinish, h]
    · simp [laneFinish_not_complete s lane timer h, containsSendFinish, isSendFinish, h]
  · by_cases h : s.lanesFinished + 1 = s.lane_count
    · simp [laneFinish_complete s lane timer h, h]
    · simp [laneFinish_not_complete s lane timer h, h]
  · intro h
    simp [laneFinish_complete s lane timer h]
  · intro evts h0 hlt
    exact runFinishes_no_sendFinish evts s (by omega)

theorem C1_witness :
    containsSendFinish (laneFinish (initRace 1) 2 10).2.1 = true ∧
    containsSendFinish (runFinishes (initRace 3) [(1, 5), (2, 6)]).2 = false := by
  constructor
  · exact ((C1_laneFinish_posts_once_all_lanes_report (initRace 1) 2 10).1).mpr (by decide)
  · exact (C1_laneFinish_posts_once_all_lanes_report (initRace 3) 1 0).2.2.2
      [(1, 5), (2, 6)] (by decide) (by decide)

/-- C2: with a race in progress (`start_time > 0`), `laneFinish(lane,
timer)` records `lane_times[lane] = round(timer - start_time, 3)`, leaving
other lanes and the start timestamp untouched; on race completion
`stopRace` clears the mapping (`lane_times = {}`) and zeroes
`start_time`. -/
theorem C2_laneFinish_elapsed_time :
    ∀ (s : RaceState) (lane : Nat) (timer : ℚ), 0 < s.start_time →
      (s.lanesFinished + 1 ≠ s.lane_count →
        dlookup lane (laneFinish s lane timer).1.lane_times = some (pyRound3 (timer - s.start_time)) ∧
        (∀ l, l ≠ lane → dlookup l (laneFinish s lane timer).1.lane_times = dlookup l s.lane_times) ∧
        (laneFinish s lane timer).1.start_time = s.start_time) ∧
      (s.lanesFinished + 1 = s.lane_count →
        (laneFinish s lane timer).1.lane_times = [] ∧
        (laneFinish s lane timer).1.start_time = 0) := by
  intro s lane timer hst
  constructor
  · intro h
    rw [laneFinish_not_complete s lane timer h]
    refine ⟨?_, ?_, rfl⟩
    · show dlookup lane (dinsert lane (if s.start_time > 0 then pyRound3 (timer - s.start_time) else 0) s.lane_times) = _
      rw [dlookup_dinsert_self, if_pos hst]
    · intro l hl
      exact dlookup_dinsert_ne _ _ _ _ hl
  · intro h
    rw [laneFinish_complete s lane timer h]
    exact ⟨rfl, rfl⟩

theorem C2_witness :
    dlookup 1 (laneFinish { initRace 3 with start_time := 2 } 1 (7/2)).1.lane_times =
      some (pyRound3 (7/2 - 2)) := by
  have h := C2_laneFinish_elapsed_time { initRace 3 with start_time := 2 } 1 (7/2) (by decide)
  exact (h.1 (by decide)).1

/-- C8: `derbyRace.startRace` is idempotent while a race is in progress:
with `start_time` nonzero a further call changes nothing and publishes no
`race_start` event; only a call with `start_time == 0` resets
`lanesFinished`, clears `lane_times`, sets `start_time` and publishes the
`race_start` event. -/
theorem C8_startRace_idempotent :
    (∀ (s : RaceState) (timer : ℚ), s.start_time ≠ 0 → startRace s timer = (s, [])) ∧
    (∀ (s : RaceState) (timer : ℚ), s.start_time = 0 →
      startRace s timer =
        ({ s with lanesFinished := 0, lane_times := [], start_time := timer },
         [Effect.raceStartEvent timer s.roundid s.heatid])) := by
  constructor
  · intro s timer h; simp [startRace, h]
  · intro s timer h; simp [startRace, h]

theorem C8_witness :
    startRace { initRace 3 with start_time := 5 } 9 = ({ initRace 3 with start_time := 5 }, []) :=
  C8_startRace_idempotent.1 { initRace 3 with start_time := 5 } 9 (by decide)

/-! ## derbyRace.setLEDFromRaceStat : race-state transitions from polled API flags -/

/-- The fields of the polled race-status dict (`api.get_race_status()`)
that `setLEDFromRaceStat` reads: `racestats.get("active", False)` and
`racestats.get("timer-state-string")`. -/
structure RaceStats where
  active : Bool
  timerStateString : String
  deriving DecidableEq, Repr

/-- `derbyRace.setLEDFromRaceStat(racestats)`: three sequential checks
mutating `race_state` (and picking an LED colour), then an LED update when
the colour changed.  The "Race running" branch also calls `startRace`. -/
def setLEDFromRaceStat (s : RaceState) (racestats : RaceStats) (now : ℚ) :
    RaceState × List Effect :=
  let p1 : Option String × RaceState :=
    if racestats.active = true ∧ s.race_state = "STOPPED" then
      (some "blue", { s with race_state := "STAGING" })
    else (none, s)
  let p2 : (Option String × RaceState) × List Effect :=
    if racestats.timerStateString = "Race running" then
      let r := startRace { p1.2 with race_state := "RACING" } now
      ((some "green", r.1), r.2)
    else ((p1.1, p1.2), [])
  let p3 : Option String × RaceState :=
    if ¬ racestats.active = true then
      (some "red", { p2.1.2 with race_state := "STOPPED" })
    else (p2.1.1, p2.1.2)
  match p3.1 with
  | some l =>
    if l ≠ p3.2.led then ({ p3.2 with led := l }, p2.2 ++ [Effect.updateLEDAll l])
    else (p3.2, p2.2)
  | none => (p3.2, p2.2)

/-- The race state after `setLEDFromRaceStat`, as a single conditional. -/
theorem setLEDFromRaceStat_race_state (s : RaceState) (rs : RaceStats) (now : ℚ) :
    (setLEDFromRaceStat s rs now).1.race_state =
      if rs.active = false then "STOPPED"
      else if rs.timerStateString = "Race running" then "RACING"
      else if s.race_state = "STOPPED" then "STAGING"
      else s.race_state := by
  unfold setLEDFromRaceStat startRace
  by_cases ha : rs.active = true <;> by_cases ht : rs.timerStateString = "Race running" <;>
    by_cases hs : s.race_state = "STOPPED" <;>
      simp [ha, ht, hs] <;> (try split_ifs) <;> rfl

/-- C3: `race_state` is initialized to STOPPED and every writer
(`setLEDFromRaceStat` and `stopRace`) assigns one of the three enum values
STOPPED, STAGING, RACING; `setLEDFromRaceStat` moves STOPPED to STAGING
when the polled status is active (and the timer-state string is not "Race
running"), moves to RACING when the polled timer-state string equals
"Race running" (with the polled status active), and moves to STOPPED when
the polled status is not active. -/
theorem C3_race_state_enum :
    (∀ n : Nat, (initRace n).race_state = "STOPPED") ∧
    (∀ (s : RaceState) (t : ℚ), (stopRace s t).1.race_state = "STOPPED") ∧
    (∀ (s : RaceState) (rs : RaceStats) (now : ℚ),
      (s.race_state = "STOPPED" ∨ s.race_state = "STAGING" ∨ s.race_state = "RACING") →
      ((setLEDFromRaceStat s rs now).1.race_state = "STOPPED" ∨
       (setLEDFromRaceStat s rs now).1.race_state = "STAGING" ∨
       (setLEDFromRaceStat s rs now).1.race_state = "RACING")) ∧
    (∀ (s : RaceState) (rs : RaceStats) (now : ℚ), rs.active = false →
      (setLEDFromRaceStat s rs now).1.race_state = "STOPPED") ∧
    (∀ (s : RaceState) (rs : RaceStats) (now : ℚ), rs.active = true →
      rs.timerStateString = "Race running" →
      (setLEDFromRaceStat s rs now).1.race_state = "RACING") ∧
    (∀ (s : RaceState) (rs : RaceStats) (now : ℚ), rs.active = true →
      rs.timerStateString ≠ "Race running" → s.race_state = "STOPPED" →
      (setLEDFromRaceStat s rs now).1.race_state = "STAGING") := by
  refine ⟨fun n => rfl, fun s t => rfl, ?_, ?_, ?_, ?_⟩
  · intro s rs now hmem
    rw [setLEDFromRaceStat_race_state]
    split_ifs with h1 h2 h3
    · exact Or.inl rfl
    · exact Or.inr (Or.inr rfl)
    · exact Or.inr (Or.inl rfl)
    · exact hmem
  · intro s rs now ha
    rw [setLEDFromRaceStat_race_state, if_pos ha]
  · intro s rs now ha ht
    rw [setLEDFromRaceStat_race_state]
    rw [if_neg (by simp [ha]), if_pos ht]
  · intro s rs now ha ht hs
    rw [setLEDFromRaceStat_race_state]
    rw [if_neg (by simp [ha]), if_neg ht, if_pos hs]

theorem C3_witness :
    (setLEDFromRaceStat (initRace 3) { active := true, timerStateString := "" } 4).1.race_state =
      "STAGING" :=
  C3_race_state_enum.2.2.2.2.2 (initRace 3)
    { active := true, timerStateString := "" } 4 rfl (by decide) rfl

/-! ## derbyRace.timerHeartbeat -/

/-- `derbyRace.timerHeartbeat(lane, isReady)` at `current_time`: records
`{'time': current_time, 'isReady': isReady}` for the lane, removes entries
whose timestamp is not within `HEARTBEAT_TIMEOUT` of now, and forwards the
mapping to `api.send_timer_heartbeat` when no forward has happened yet
(`last_heartbeat == 0`) or more than `HEARTBEAT_PULSE` seconds have elapsed
since the previous forward.  Returns the new state and whether the
heartbeat was forwarded. -/
def timerHeartbeat (s : RaceState) (lane : Nat) (isReady : Bool) (current_time : ℚ) :
    RaceState × Bool :=
  let hb1 := dinsert lane (current_time, isReady) s.timer_heartbeats
  let hb2 := hb1.filter (fun p => decide (p.2.1 > current_time - HEARTBEAT_TIMEOUT))
  if s.last_heartbeat = 0 ∨ current_time - s.last_heartbeat > HEARTBEAT_PULSE then
    ({ s with timer_heartbeats := hb2, last_heartbeat := current_time }, true)
  else
    ({ s with timer_heartbeats := hb2 }, false)

/-- C5: after `timerHeartbeat(lane, isReady)` at time `t` the heartbeat
mapping contains the lane with `{'time': t, 'isReady': isReady}`, contains
no entry whose last-seen timestamp is older than `t - HEARTBEAT_TIMEOUT`,
and the mapping is forwarded to the API exactly when more than
`HEARTBEAT_PULSE` has elapsed since the previous forward or no forward has
happened yet. -/
theorem C5_timerHeartbeat_mapping :
    ∀ (s : RaceState) (lane : Nat) (isReady : Bool) (t : ℚ),
      dlookup lane (timerHeartbeat s lane isReady t).1.timer_heartbeats = some (t, isReady) ∧
      (∀ l e, (l, e) ∈ (timerHeartbeat s lane isReady t).1.timer_heartbeats →
        t - HEARTBEAT_TIMEOUT < e.1) ∧
      ((timerHeartbeat s lane isReady t).2 = true ↔
        (s.last_heartbeat = 0 ∨ t - s.last_heartbeat > HEARTBEAT_PULSE)) := by
  intro s lane isReady t
  by_cases hc : s.last_heartbeat = 0 ∨ t - s.last_heartbeat > HEARTBEAT_PULSE
  all_goals
    refine ⟨?_, ?_, ?_⟩
  · show dlookup lane ((timerHeartbeat s lane isReady t).1.timer_heartbeats) = _
    simp only [timerHeartbeat, if_pos hc]
    exact dlookup_filter _ _ _ _ (dlookup_dinsert_self lane (t, isReady) s.timer_heartbeats)
      (by simp [HEARTBEAT_TIMEOUT])
  · intro l e hmem
    simp only [timerHeartbeat, if_pos hc] at hmem
    have := (List.mem_filter.mp hmem).2
    simpa [HEARTBEAT_TIMEOUT] using this
  · simp only [timerHeartbeat, if_pos hc]
    simpa using hc
  · simp only [timerHeartbeat, if_neg hc]
    exact dlookup_filter _ _ _ _ (dlookup_dinsert_self lane (t, isReady) s.timer_heartbeats)
      (by simp [HEARTBEAT_TIMEOUT])
  · intro l e hmem
    simp only [timerHeartbeat, if_neg hc] at hmem
    have := (List.mem_filter.mp hmem).2
    simpa [HEARTBEAT_TIMEOUT] using this
  · simp only [timerHeartbeat, if_neg hc]
    simpa using hc

theorem C5_witness :
    dlookup 2 (timerHeartbeat (initRace 3) 2 true 10).1.timer_heartbeats = some (10, true) ∧
    (timerHeartbeat (initRace 3) 2 true 10).2 = true ∧
    (10 : ℚ) - HEARTBEAT_TIMEOUT < 10 := by
  refine ⟨(C5_timerHeartbeat_mapping (initRace 3) 2 true 10).1, ?_, ?_⟩
  · exact ((C5_timerHeartbeat_mapping (initRace 3) 2 true 10).2.2).mpr (Or.inl rfl)
  · exact (C5_timerHeartbeat_mapping (initRace 3) 2 true 10).2.1 2 (10, true)
      (by norm_num [timerHeartbeat, initRace, dinsert, HEARTBEAT_TIMEOUT, List.filter])

/-! ## DIP-switch decoding -/

/-- `derbyRace.getDIPName(dip)`: fixed partial mapping from 4-bit DIP
strings to lane numbers, defaulting to 0. -/
def getDIPName (dip : String) : Nat :=
  if dip = "1000" then 1
  else if dip = "1001" then 2
  else if dip = "1010" then 3
  else if dip = "1011" then 4
  else 0

namespace derbyPCBv1

/-- `derbyPCBv1.get_Lane()`: same mapping returning digit strings, with the
DIP string read from the GPIO pins (`readDIP()`) lifted to a parameter. -/
def get_Lane (dip : String) : String :=
  if dip = "1000" then "1"
  else if dip = "1001" then "2"
  else if dip = "1010" then "3"
  else if dip = "1011" then "4"
  else "0"

end derbyPCBv1

/-- C4: the 4-bit DIP decoding is the fixed partial mapping 1000→1, 1001→2,
1010→3, 1011→4 with every other string decoding to 0, and
`derbyPCBv1.get_Lane` agrees with `derbyRace.getDIPName` on every DIP
string (as digit strings / after `int(...)`). -/
theorem C4_dip_decoders_agree :
    getDIPName "1000" = 1 ∧ getDIPName "1001" = 2 ∧ getDIPName "1010" = 3 ∧
    getDIPName "1011" = 4 ∧
    (∀ s : String, s ≠ "1000" → s ≠ "1001" → s ≠ "1010" → s ≠ "1011" → getDIPName s = 0) ∧
    (∀ s : String, derbyPCBv1.get_Lane s = toString (getDIPName s)) := by
  refine ⟨rfl, rfl, rfl, rfl, ?_, ?_⟩
  · intro s h1 h2 h3 h4
    simp [getDIPName, h1, h2, h3, h4]
  · intro s
    unfold getDIPName derbyPCBv1.get_Lane
    split_ifs <;> rfl

theorem C4_witness :
    getDIPName "0110" = 0 ∧
    derbyPCBv1.get_Lane "1010" = toString (getDIPName "1010") := by
  constructor
  · exact C4_dip_decoders_agree.2.2.2.2.1 "0110" (by decide) (by decide) (by decide) (by decide)
  · exact C4_dip_decoders_agree.2.2.2.2.2 "1010"

/-! ## finishtimer.py : MQTT reconnect backoff -/

/-- Initial delay between retries in seconds (`finishtimer.py`). -/
def MQTT_RETRY_DELAY : Nat := 5
/-- Maximum delay between retries in seconds (`finishtimer.py`). -/
def MQTT_MAX_DELAY : Nat := 300
/-- Maximum number of connection retry attempts (`finishtimer.py`). -/
def MQTT_MAX_RETRIES : Nat := 10

/-- The retry bookkeeping of `connect_with_retry`'s failure branch for a
non-first attempt: increment the retry counter, compute the
exponential-backoff delay `min(MQTT_RETRY_DELAY * 2**(retry_count - 1),
MQTT_MAX_DELAY)`, and on reaching `MQTT_MAX_RETRIES` reset the counter to 0
while holding the delay at `MQTT_MAX_DELAY`.  Returns the new counter and
the delay of the retry that is then scheduled (one is always scheduled). -/
def connectRetryStep (retry_count : Nat) : Nat × Nat :=
  let rc := retry_count + 1
  let delay := min (MQTT_RETRY_DELAY * 2 ^ (rc - 1)) MQTT_MAX_DELAY
  if MQTT_MAX_RETRIES ≤ rc then (0, MQTT_MAX_DELAY) else (rc, delay)

/-- C7: for the n-th consecutive failed retry (entering with counter n-1,
n ≥ 1) the scheduled delay is min(5 * 2^(n-1), 300) seconds; at the 10th
consecutive failure the counter resets to 0 while the delay is held at the
maximum 300 seconds, and a positive retry delay is always scheduled. -/
theorem C7_mqtt_backoff :
    ∀ n : Nat, 1 ≤ n →
      (connectRetryStep (n - 1)).2 = min (MQTT_RETRY_DELAY * 2 ^ (n - 1)) MQTT_MAX_DELAY ∧
      (connectRetryStep (n - 1)).1 = (if MQTT_MAX_RETRIES ≤ n then 0 else n) ∧
      (MQTT_MAX_RETRIES ≤ n → (connectRetryStep (n - 1)).2 = MQTT_MAX_DELAY) ∧
      0 < (connectRetryStep (n - 1)).2 := by
  intro n hn
  have hrc : n - 1 + 1 = n := Nat.succ_pred_eq_of_pos hn
  have hpos : 0 < MQTT_RETRY_DELAY * 2 ^ (n - 1) := by
    unfold MQTT_RETRY_DELAY
    positivity
  have hstep : connectRetryStep (n - 1) =
      if MQTT_MAX_RETRIES ≤ n then (0, MQTT_MAX_DELAY)
      else (n, min (MQTT_RETRY_DELAY * 2 ^ (n - 1)) MQTT_MAX_DELAY) := by
    simp only [connectRetryStep, hrc]
  by_cases h10 : MQTT_MAX_RETRIES ≤ n
  · have h2 : (2 : Nat) ^ 9 ≤ 2 ^ (n - 1) := by
      refine Nat.pow_le_pow_right (by norm_num) ?_
      unfold MQTT_MAX_RETRIES at h10
      omega
    have hge : MQTT_MAX_DELAY ≤ MQTT_RETRY_DELAY * 2 ^ (n - 1) := by
      calc MQTT_MAX_DELAY ≤ MQTT_RETRY_DELAY * 2 ^ 9 := by norm_num [MQTT_MAX_DELAY, MQTT_RETRY_DELAY]
        _ ≤ MQTT_RETRY_DELAY * 2 ^ (n - 1) := Nat.mul_le_mul_left _ h2
    rw [hstep, if_pos h10]
    exact ⟨(Nat.min_eq_right hge).symm, by rw [if_pos h10], fun _ => rfl,
      by norm_num [MQTT_MAX_DELAY]⟩
  · rw [hstep, if_neg h10]
    refine ⟨rfl, by rw [if_neg h10], fun h => absurd h h10, ?_⟩
    simp only [Nat.lt_min]
    exact ⟨hpos, by norm_num [MQTT_MAX_DELAY]⟩

theorem C7_witness :
    (connectRetryStep 0).2 = 5 ∧ (connectRetryStep 9).1 = 0 ∧ (connectRetryStep 9).2 = 300 := by
  refine ⟨?_, ?_, ?_⟩
  · have h := (C7_mqtt_backoff 1 (by decide)).1
    simpa [MQTT_RETRY_DELAY, MQTT_MAX_DELAY] using h
  · have h := (C7_mqtt_backoff 10 (by decide)).2.1
    simpa [MQTT_MAX_RETRIES] using h
  · have h := (C7_mqtt_backoff 10 (by decide)).2.2.1 (by decide)
    simpa [MQTT_MAX_DELAY] using h

/-! ## derbyapi.py : send_timer_heartbeat payload and RSSI conversion -/

/-- The `confirmed` flag computed in `DerbyNetClient.send_timer_heartbeat`:
1 when lanes 1, 2 and 3 are all present in `timer_heartbeats` and each
reports `isReady`, else 0. -/
def confirmedFlag (timer_heartbeats : List (Nat × ℚ × Bool)) : Nat :=
  let online1 := (dlookup 1 timer_heartbeats).isSome
  let online2 := (dlookup 2 timer_heartbeats).isSome
  let online3 := (dlookup 3 timer_heartbeats).isSome
  let ready1 := ((dlookup 1 timer_heartbeats).map fun d => d.2).getD false
  let ready2 := ((dlookup 2 timer_heartbeats).map fun d => d.2).getD false
  let ready3 := ((dlookup 3 timer_heartbeats).map fun d => d.2).getD false
  if ready1 && ready2 && ready3 && online1 && online2 && online3 then 1 else 0

/-- The `&timerId{lane}=L{lane}&lane{lane}=1&ready{lane}={0,1}` field group
appended to the heartbeat payload for one `timer_heartbeats` entry. -/
def laneField (lane : Nat) (d : ℚ × Bool) : String :=
  let l := toString lane
  "&timerId" ++ l ++ "=L" ++ l ++ "&lane" ++ l ++ "=1" ++
    (if d.2 then "&ready" ++ l ++ "=1" else "&ready" ++ l ++ "=0")

/-- The per-lane field groups of the heartbeat payload, in dict order. -/
def payloadFields (timer_heartbeats : List (Nat × ℚ × Bool)) : List String :=
  timer_heartbeats.map fun p => laneField p.1 p.2

/-- The full heartbeat payload string built by `send_timer_heartbeat`. -/
def heartbeatPayload (timer_heartbeats : List (Nat × ℚ × Bool)) : String :=
  "message=HEARTBEAT&action=timer-message&confirmed=" ++
    toString (confirmedFlag timer_heartbeats) ++
    String.join (payloadFields timer_heartbeats)

/-- C9: the heartbeat payload's `confirmed` flag is 1 iff lanes 1, 2 and 3
are all present in `timer_heartbeats` with `isReady` true; entries for any
other lane are included as timerId/lane/ready fields in the payload but the
flag only depends on the lane 1-3 entries. -/
theorem C9_confirmed_flag :
    ∀ hb : List (Nat × ℚ × Bool),
      (confirmedFlag hb = 1 ↔
        ((∃ q, dlookup 1 hb = some (q, true)) ∧ (∃ q, dlookup 2 hb = some (q, true)) ∧
         (∃ q, dlookup 3 hb = some (q, true)))) ∧
      (∀ hb2, dlookup 1 hb = dlookup 1 hb2 → dlookup 2 hb = dlookup 2 hb2 →
        dlookup 3 hb = dlookup 3 hb2 → confirmedFlag hb = confirmedFlag hb2) ∧
      (∀ l d, (l, d) ∈ hb → laneField l d ∈ payloadFields hb) := by
  intro hb
  refine ⟨?_, ?_, ?_⟩
  · have hgen : ∀ o1 o2 o3 : Option (ℚ × Bool),
        ((if ((o1.map fun d => d.2).getD false && (o2.map fun d => d.2).getD false &&
              (o3.map fun d => d.2).getD false && o1.isSome && o2.isSome && o3.isSome : Bool)
          then 1 else 0) = 1 ↔
          ((∃ q, o1 = some (q, true)) ∧ (∃ q, o2 = some (q, true)) ∧
           (∃ q, o3 = some (q, true)))) := by
      intro o1 o2 o3
      rcases o1 with _ | ⟨q1, b1⟩ <;> rcases o2 with _ | ⟨q2, b2⟩ <;>
        rcases o3 with _ | ⟨q3, b3⟩ <;> (try cases b1) <;> (try cases b2) <;>
          (try cases b3) <;> simp
    unfold confirmedFlag
    exact hgen (dlookup 1 hb) (dlookup 2 hb) (dlookup 3 hb)
  · intro hb2 e1 e2 e3
    unfold confirmedFlag
    rw [e1, e2, e3]
  · intro l d hmem
    unfold payloadFields
    exact List.mem_map.mpr ⟨(l, d), hmem, rfl⟩

theorem C9_witness :
    confirmedFlag [(1, 0, true), (2, 0, true), (3, 0, true), (4, 0, false)] = 1 ∧
    laneField 4 (0, false) ∈
      payloadFields [(1, 0, true), (2, 0, true), (3, 0, true), (4, 0, false)] := by
  constructor
  · exact (C9_confirmed_flag _).1.mpr ⟨⟨0, rfl⟩, ⟨0, rfl⟩, ⟨0, rfl⟩⟩
  · exact (C9_confirmed_flag _).2.2 4 (0, false) (by simp)

/-- `DerbyNetClient.getWiFiPercentFromRSSI(rssi)`: non-int inputs (`none`)
give 0; int inputs clamp to [0, 100] with the linear ramp
`(rssi + 100) * 2` in between. -/
def getWiFiPercentFromRSSI (rssi : Option ℤ) : ℤ :=
  match rssi with
  | none => 0
  | some r => if r ≤ -100 then 0 else if r ≥ -50 then 100 else (r + 100) * 2

/-- C10: `getWiFiPercentFromRSSI` always returns an integer in [0, 100]:
0 for non-int input, 0 for rssi ≤ -100, 100 for rssi ≥ -50, and
(rssi + 100) * 2 for -100 < rssi < -50; on int inputs it is monotone
non-decreasing. -/
theorem C10_wifi_percent :
    (∀ x, 0 ≤ getWiFiPercentFromRSSI x ∧ getWiFiPercentFromRSSI x ≤ 100) ∧
    getWiFiPercentFromRSSI none = 0 ∧
    (∀ r : ℤ, r ≤ -100 → getWiFiPercentFromRSSI (some r) = 0) ∧
    (∀ r : ℤ, -50 ≤ r → getWiFiPercentFromRSSI (some r) = 100) ∧
    (∀ r : ℤ, -100 < r → r < -50 → getWiFiPercentFromRSSI (some r) = (r + 100) * 2) ∧
    (∀ a b : ℤ, a ≤ b →
      getWiFiPercentFromRSSI (some a) ≤ getWiFiPercentFromRSSI (some b)) := by
  refine ⟨?_, rfl, ?_, ?_, ?_, ?_⟩
  · intro x
    rcases x with _ | r
    · exact ⟨le_refl 0, by decide⟩
    · simp only [getWiFiPercentFromRSSI]
      exact ⟨by split_ifs <;> omega, by split_ifs <;> omega⟩
  · intro r h
    simp only [getWiFiPercentFromRSSI]
    split_ifs
    all_goals omega
  · intro r h
    simp only [getWiFiPercentFromRSSI]
    split_ifs
    all_goals omega
  · intro r h1 h2
    simp only [getWiFiPercentFromRSSI]
    split_ifs
    all_goals omega
  · intro a b hab
    simp only [getWiFiPercentFromRSSI]
    split_ifs
    all_goals omega

theorem C10_witness :
    getWiFiPercentFromRSSI (some (-75)) = 50 ∧
    getWiFiPercentFromRSSI (some (-200)) = 0 ∧
    getWiFiPercentFromRSSI (some 0) = 100 ∧
    getWiFiPercentFromRSSI (some (-80)) ≤ getWiFiPercentFromRSSI (some (-60)) := by
  refine ⟨?_, ?_, ?_, ?_⟩
  · have h := C10_wifi_percent.2.2.2.2.1 (-75) (by norm_num) (by norm_num)
    simpa using h
  · exact C10_wifi_percent.2.2.1 (-200) (by norm_num)
  · exact C10_wifi_percent.2.2.2.1 0 (by norm_num)
  · exact C10_wifi_percent.2.2.2.2.2 (-80) (-60) (by norm_num)

/-! ## derbyapi.py : DerbyNetClient request operations and session cookies -/

/-- A server response to one HTTP request, as the client code distinguishes
them: HTTP 401, a network error (`requests.RequestException`), or a 2xx
response whose XML body reports success or failure. -/
inductive HttpResp
  | unauthorized : HttpResp
  | netError : HttpResp
  | okSuccess : HttpResp
  | okFailure : HttpResp
  deriving DecidableEq, Repr

/-- The observable outcome of one client operation: the returned value
(`True`/`False`), the number of HTTP requests issued and the number of
`login()` calls made. -/
structure ApiOutcome where
  result : Bool
  requests : Nat
  logins : Nat
  deriving DecidableEq, Repr

/-- Account for one more `login()` call. -/
def addLogin (o : ApiOutcome) : ApiOutcome := { o with logins := o.logins + 1 }

/-- Account for one more HTTP request. -/
def addRequest (o : ApiOutcome) : ApiOutcome := { o with requests := o.requests + 1 }

/-- The body an operation runs once a cookie is in hand: issue the request;
on HTTP 401 set `authcode = login()` and re-enter the operation (when
`login()` yields no cookie the re-entered operation logs in once more,
fails again and returns False with no further request); on a network error
return False; on 2xx return True - except that `send_start`/`send_finish`
(`xmlCheck = true`) re-login and retry once more when the XML body reports
`<failure>`, returning False when that re-login yields no cookie.  The
server is modelled by `loginCookie` (what a `login()` call yields) and the
list of responses to successive requests; an exhausted response list
behaves as a network error. -/
def requestAuthed (xmlCheck : Bool) (loginCookie : Option String) (_cookie : String) :
    List HttpResp → ApiOutcome
  | [] => { result := false, requests := 1, logins := 0 }
  | HttpResp.unauthorized :: rest =>
    match loginCookie with
    | some c => addRequest (addLogin (requestAuthed xmlCheck loginCookie c rest))
    | none => { result := false, requests := 1, logins := 2 }
  | HttpResp.netError :: _ => { result := false, requests := 1, logins := 0 }
  | HttpResp.okSuccess :: _ => { result := true, requests := 1, logins := 0 }
  | HttpResp.okFailure :: rest =>
    if xmlCheck then
      match loginCookie with
      | some c => addRequest (addLogin (requestAuthed xmlCheck loginCookie c rest))
      | none => { result := false, requests := 1, logins := 1 }
    else { result := true, requests := 1, logins := 0 }

/-- The entry shared by the request operations: with no authcode stored,
call `login()` first; when it yields no cookie, return False without
issuing the request. -/
def requestOp (xmlCheck : Bool) (loginCookie authcode : Option String)
    (resps : List HttpResp) : ApiOutcome :=
  match authcode with
  | some c => requestAuthed xmlCheck loginCookie c resps
  | none =>
    match loginCookie with
    | none => { result := false, requests := 0, logins := 1 }
    | some c => addLogin (requestAuthed xmlCheck loginCookie c resps)

/-- `DerbyNetClient.send_start()` (checks the XML body). -/
def send_start (loginCookie authcode : Option String) (resps : List HttpResp) : ApiOutcome :=
  requestOp true loginCookie authcode resps

/-- `DerbyNetClient.send_finish(roundid, heat, lane_times)` (checks the XML
body); the payload parameters do not influence the control flow. -/
def send_finish (_roundid _heatid : Nat) (_lane_times : List (Nat × ℚ))
    (loginCookie authcode : Option String) (resps : List HttpResp) : ApiOutcome :=
  requestOp true loginCookie authcode resps

/-- `DerbyNetClient.set_staging()`. -/
def set_staging (loginCookie authcode : Option String) (resps : List HttpResp) : ApiOutcome :=
  requestOp false loginCookie authcode resps

/-- `DerbyNetClient.get_race_status()`; `result = true` stands for the
parsed status dict being returned. -/
def get_race_status (loginCookie authcode : Option String) (resps : List HttpResp) : ApiOutcome :=
  requestOp false loginCookie authcode resps

/-- `DerbyNetClient.send_device_status(payload)` for a dict payload. -/
def send_device_status (loginCookie authcode : Option String) (resps : List HttpResp) : ApiOutcome :=
  requestOp false loginCookie authcode resps

/-- DerbyNet requires a heartbeat every 60 seconds (`derbyapi.py`). -/
def HEARTBEAT_INTERVAL : ℚ := 60

/-- `DerbyNetClient.send_timer_heartbeat(timer_heartbeats)`: first the
nested throttle checks (return True immediately when a heartbeat was
already sent, `last_heartbeat_time > 0`, and fewer than
`HEARTBEAT_INTERVAL - 5` seconds have elapsed), then the same
cookie/login/401 pattern as the other operations.  The 401 retry re-enters
the function; with the same timestamps the throttle re-check is unchanged,
so it is folded into `requestAuthed`. -/
def send_timer_heartbeat (_timer_heartbeats : List (Nat × ℚ × Bool))
    (last_heartbeat_time current_time : ℚ)
    (loginCookie authcode : Option String) (resps : List HttpResp) : ApiOutcome :=
  if current_time - last_heartbeat_time < HEARTBEAT_INTERVAL then
    if current_time - last_heartbeat_time < HEARTBEAT_INTERVAL - 5 then
      if last_heartbeat_time > 0 then { result := true, requests := 0, logins := 0 }
      else requestOp false loginCookie authcode resps
    else requestOp false loginCookie authcode resps
  else requestOp false loginCookie authcode resps

/-- C6 counterexample: the claim that every request operation, when
`self.authcode` is unset, first calls `login` (and returns False when no
cookie results) fails for `send_timer_heartbeat`: in the throttled path
(a heartbeat already sent 1 second ago) it returns True with no login call
and no request, even though the authcode is unset. -/
theorem C6_counterexample :
    send_timer_heartbeat [] 1 2 none none [] =
      { result := true, requests := 0, logins := 0 } ∧
    ¬ (∀ (hb : List (Nat × ℚ × Bool)) (lh ct : ℚ) (lc : Option String)
        (resps : List HttpResp),
        1 ≤ (send_timer_heartbeat hb lh ct lc none resps).logins ∧
        (lc = none → (send_timer_heartbeat hb lh ct lc none resps).result = false)) := by
  have h1 : send_timer_heartbeat [] 1 2 none none [] =
      { result := true, requests := 0, logins := 0 } := by
    unfold send_timer_heartbeat
    rw [if_pos (by norm_num [HEARTBEAT_INTERVAL]),
        if_pos (by norm_num [HEARTBEAT_INTERVAL]), if_pos (by norm_num)]
  refine ⟨h1, fun h => ?_⟩
  have h2 := (h [] 1 2 none []).1
  rw [h1] at h2
  exact absurd h2 (by norm_num)

/-- C6 (amended): every `DerbyNetClient` request operation requires a
session cookie - when `self.authcode` is unset it first calls `login`, and
if `login` yields no cookie the operation returns False without issuing
its request; when the server answers HTTP 401 the operation re-logs-in and
retries itself once with the fresh cookie - except that
`send_timer_heartbeat` first applies its heartbeat throttle: when a
heartbeat was already sent (`last_heartbeat_time > 0`) and fewer than
`HEARTBEAT_INTERVAL - 5` seconds have elapsed it returns True immediately,
with no login call and no request, even when the authcode is unset. -/
theorem C6_cookie_required :
    (∀ resps, send_start none none resps = { result := false, requests := 0, logins := 1 }) ∧
    (∀ rid hid lt resps, send_finish rid hid lt none none resps = { result := false, requests := 0, logins := 1 }) ∧
    (∀ resps, set_staging none none resps = { result := false, requests := 0, logins := 1 }) ∧
    (∀ resps, get_race_status none none resps = { result := false, requests := 0, logins := 1 }) ∧
    (∀ resps, send_device_status none none resps = { result := false, requests := 0, logins := 1 }) ∧
    (∀ hb lh ct resps, ¬ (lh > 0 ∧ ct - lh < HEARTBEAT_INTERVAL - 5) →
      send_timer_heartbeat hb lh ct none none resps = { result := false, requests := 0, logins := 1 }) ∧
    (∀ hb lh ct resps lc ac, lh > 0 → ct - lh < HEARTBEAT_INTERVAL - 5 →
      send_timer_heartbeat hb lh ct lc ac resps = { result := true, requests := 0, logins := 0 }) ∧
    (∀ c c' rest, send_start (some c') (some c) (HttpResp.unauthorized :: rest) =
      addRequest (addLogin (send_start (some c') (some c') rest))) ∧
    (∀ rid hid lt c c' rest, send_finish rid hid lt (some c') (some c) (HttpResp.unauthorized :: rest) =
      addRequest (addLogin (send_finish rid hid lt (some c') (some c') rest))) ∧
    (∀ c c' rest, set_staging (some c') (some c) (HttpResp.unauthorized :: rest) =
      addRequest (addLogin (set_staging (some c') (some c') rest))) ∧
    (∀ c c' rest, get_race_status (some c') (some c) (HttpResp.unauthorized :: rest) =
      addRequest (addLogin (get_race_status (some c') (some c') rest))) ∧
    (∀ c c' rest, send_device_status (some c') (some c) (HttpResp.unauthorized :: rest) =
      addRequest (addLogin (send_device_status (some c') (some c') rest))) ∧
    (∀ hb lh ct c c' rest, ¬ (lh > 0 ∧ ct - lh < HEARTBEAT_INTERVAL - 5) →
      send_timer_heartbeat hb lh ct (some c') (some c) (HttpResp.unauthorized :: rest) =
        addRequest (addLogin (requestAuthed false (some c') c' rest))) := by
  have hthrottle : ∀ (hb : List (Nat × ℚ × Bool)) (lh ct : ℚ) (resps : List HttpResp)
      (lc ac : Option String), ¬ (lh > 0 ∧ ct - lh < HEARTBEAT_INTERVAL - 5) →
      send_timer_heartbeat hb lh ct lc ac resps = requestOp false lc ac resps := by
    intro hb lh ct resps lc ac hnot
    unfold send_timer_heartbeat
    by_cases h1 : ct - lh < HEARTBEAT_INTERVAL
    · rw [if_pos h1]
      by_cases h2 : ct - lh < HEARTBEAT_INTERVAL - 5
      · rw [if_pos h2]
        have h3 : ¬ lh > 0 := fun hp => hnot ⟨hp, h2⟩
        rw [if_neg h3]
      · rw [if_neg h2]
    · rw [if_neg h1]
  refine ⟨fun _ => rfl, fun _ _ _ _ => rfl, fun _ => rfl, fun _ => rfl, fun _ => rfl,
    ?_, ?_, fun _ _ _ => rfl, fun _ _ _ _ _ _ => rfl, fun _ _ _ => rfl, fun _ _ _ => rfl,
    fun _ _ _ => rfl, ?_⟩
  · intro hb lh ct resps hnot
    rw [hthrottle hb lh ct resps none none hnot]
    rfl
  · intro hb lh ct resps lc ac hpos hlt
    unfold send_timer_heartbeat
    have h60 : ct - lh < HEARTBEAT_INTERVAL := by
      unfold HEARTBEAT_INTERVAL at hlt ⊢
      linarith
    rw [if_pos h60, if_pos hlt, if_pos hpos]
  · intro hb lh ct c c' rest hnot
    rw [hthrottle hb lh ct (HttpResp.unauthorized :: rest) (some c') (some c) hnot]
    rfl

theorem C6_witness :
    send_timer_heartbeat [] 0 100 none none [] = { result := false, requests := 0, logins := 1 } ∧
    send_timer_heartbeat [] 1 2 (some "k") (some "a") [HttpResp.okSuccess] = { result := true, requests := 0, logins := 0 } ∧
    send_start (some "k") (some "a") [HttpResp.unauthorized] =
      addRequest (addLogin (send_start (some "k") (some "k") [])) := by
  refine ⟨?_, ?_, ?_⟩
  · refine C6_cookie_required.2.2.2.2.2.1 [] 0 100 [] ?_
    rintro ⟨hp, _⟩
    exact absurd hp (by norm_num)
  · exact C6_cookie_required.2.2.2.2.2.2.1 [] 1 2 [HttpResp.okSuccess] (some "k") (some "a")
      (by norm_num) (by norm_num [HEARTBEAT_INTERVAL])
  · exact C6_cookie_required.2.2.2.2.2.2.2.1 "a" "k" []
